import Mathlib

/-!
Shallow embedding of the `Vote4Us` class from `src/vote4us.ts`.

Conventions used throughout:
* JS numbers are modelled as exact rationals (`ℚ`); every numeric value the
  claims touch is a small integer or an exact ratio, so no floating-point
  rounding intervenes.  `Math.round` and `Number.prototype.toFixed(2)` are
  modelled after ECMA-262 (round half toward positive infinity on the
  absolute value for `toFixed`, `⌊x + 1/2⌋` for `Math.round`).
* `parseFloat(p.total_votes)` : the chain sends vote weights as decimal
  strings; the embedding stores the parsed value directly in the
  `total_votes` field.
* The two `sort(() => Math.random() - 0.5)` shuffles in `voteForUs` are
  modelled as explicit function parameters `sh1 sh2`; a JS sort with a
  random comparator returns some permutation of its input, so theorems
  hypothesise `∀ l, (sh l).Perm l` and counterexamples instantiate a
  concrete admissible draw (the identity permutation).
* `Array.prototype.sort()` with the default comparator sorts by UTF-16
  code units; producer names are ASCII (`a-z`, `1-5`, `.`), where this
  coincides with `String` order used here.
* The JS arrays held in `this.state` are mutated in place by `push` and
  `sort`; the embedding threads the state explicitly, and `reconcileCore`
  returns the post-call values of `originalBPSelection` and
  `modifiedBPSelection` so that the aliasing effects of `voteForUs` are
  captured faithfully.
-/

namespace Vote4Us

attribute [local semireducible] Rat.mul Rat.add Rat.sub Rat.inv Rat.ofScientific

/-- `Math.round` (ECMA-262): round half toward +infinity, i.e. `⌊q + 1/2⌋`
(`Rat.floor` is used so the kernel can evaluate it). -/
def jsRound (q : ℚ) : ℤ := Rat.floor (q + 1/2)

/-- Render a natural number below 100 as two digits (fractional part). -/
def pad2 (n : ℕ) : String := if n < 10 then "0" ++ toString n else toString n

/-- `toFixed(2)` for a nonnegative rational: the integer `n` with `n / 100`
closest to the value, ties toward the larger `n` (ECMA-262 Number.prototype.toFixed). -/
def toFixed2Abs (q : ℚ) : String :=
  toString ((jsRound (q * 100)).toNat / 100) ++ "." ++ pad2 ((jsRound (q * 100)).toNat % 100)

/-- `toFixed(2)` : sign is peeled off first per ECMA-262. -/
def toFixed2 (q : ℚ) : String :=
  if q < 0 then "-" ++ toFixed2Abs (-q) else toFixed2Abs q

/-- `(num / den * 100).toFixed(2) + '%'` as computed in `startFetchingStatics`,
including the JS behaviour when `den = 0`: `0/0` is `NaN`, `x/0` is `±Infinity`,
and `toFixed` renders non-finite numbers via `ToString`. -/
def percentStr (num den : ℚ) : String :=
  if den = 0 then
    (if num = 0 then "NaN" else if 0 < num then "Infinity" else "-Infinity") ++ "%"
  else toFixed2 (num / den * 100) ++ "%"

/-- One row of the `eosio.producers` table as consumed by `vote4us.ts`:
`owner`, `total_votes` (decimal string, stored here as its parsed value)
and the `is_active` flag (an integer the code compares against `1`). -/
structure Producer where
  owner : String
  total_votes : ℚ
  is_active : ℤ
deriving DecidableEq

/-- The `Statics` interface of `vote4us.ts`. -/
structure Statics where
  rank : ℕ
  votes : ℤ
  totalVotes : ℤ
  percentage : String
  list : List String
deriving DecidableEq

/-- `emptyStatics` constant from `vote4us.ts`. -/
def emptyStatics : Statics := { rank := 0, votes := 0, totalVotes := 0, percentage := "", list := [] }

/-- Tail of `getProducers` (lines 691-694): keep rows with `is_active === 1`,
then sort descending by parsed vote weight.  The JS sort is stable
(ES2019), matched here by insertion sort with the non-strict descending
comparator. -/
def activeSortedProducers (producers : List Producer) : List Producer :=
  List.insertionSort (fun a b => b.total_votes ≤ a.total_votes)
    (producers.filter (fun p => decide (p.is_active = 1)))

/-- The statistics computation of `startFetchingStatics` (lines 698-725),
applied to the producer list returned by `getProducers`. -/
def computeStatistics (producers : List Producer) (target : String) : Statics :=
  if producers.isEmpty then emptyStatics
  else
    match producers.find? (fun p => decide (p.owner = target)) with
    | none => emptyStatics
    | some pd =>
      { rank := producers.findIdx (fun p => decide (p.owner = target)) + 1
        votes := jsRound (pd.total_votes / 10000)
        totalVotes := jsRound (producers.foldl (fun s p => s + p.total_votes) 0)
        percentage := percentStr pd.total_votes
          ((jsRound (producers.foldl (fun s p => s + p.total_votes) 0) : ℤ) : ℚ)
        list := producers.map (fun p => p.owner) }

/-- The `LoggedAccount` interface (the opaque wharfkit `Session` field is
external to the modelled core and omitted). -/
structure LoggedAccount where
  name : String
  permission : String
deriving DecidableEq

/-- The `Vote4UsConfig` interface. -/
structure Vote4UsConfig where
  appName : String
  currentProducer : String
  suggestedBPs : List String
  notSuggestedBPs : List String
  rpcEndpoint : String
  chainId : String
  expectedBPs : ℕ
deriving DecidableEq

/-- The `Vote4UsState` interface.  `roomForMoreBPs` is a JS number computed
as `30 - producers.length`, kept as `ℤ`. -/
structure Vote4UsState where
  originalBPSelection : List String
  modifiedBPSelection : List String
  roomForMoreBPs : ℤ
  logged : Option LoggedAccount
  currentProducerStatics : Statics
  showDialog : Bool
  thanks : Bool
  hasVotedForUs : Bool
  addRecommendedBPs : Bool
  error : String
deriving DecidableEq

/-- The initial value of `this.state` (lines 52-63). -/
def initialState : Vote4UsState :=
  { originalBPSelection := []
    modifiedBPSelection := []
    roomForMoreBPs := 30
    logged := none
    currentProducerStatics := emptyStatics
    showDialog := false
    thanks := false
    hasVotedForUs := true
    addRecommendedBPs := true
    error := "" }

/-- `resetAll` (lines 641-659): the state after the reset (the external
`kit.logout()` call has no effect on the modelled state). -/
def resetAll (s : Vote4UsState) : Vote4UsState :=
  { originalBPSelection := []
    modifiedBPSelection := []
    roomForMoreBPs := 30
    logged := none
    currentProducerStatics := s.currentProducerStatics
    showDialog := false
    thanks := false
    hasVotedForUs := true
    addRecommendedBPs := true
    error := "" }

/-- Outcome of one `POST /v1/chain/get_table_rows` attempt inside
`getProducers`: either the returned `rows`, or a request-level failure
(caught and logged by the `catch` block). -/
inductive FetchOutcome where
  | rows (r : List Producer)
  | failure
deriving DecidableEq

/-- The retry loop of `getProducers` (lines 673-689), driven by a script
assigning each attempt index its outcome.  Returns the accumulated
`producers` rows together with the number of requests issued and the
number of 2-second `setTimeout` delays awaited.  The fuel starts at
`maxAttempts = 5`; the `break` on `producers.length >= expectedBPs` skips
both `attempts++` and the delay, every other iteration ends with one
delay. -/
def fetchLoop (expected : ℕ) (script : ℕ → FetchOutcome) :
    ℕ → ℕ → List Producer → ℕ → ℕ → List Producer × ℕ × ℕ
  | 0, _, producers, reqs, delays => (producers, reqs, delays)
  | fuel + 1, idx, producers, reqs, delays =>
    match script idx with
    | .rows r =>
      if expected ≤ r.length then (r, reqs + 1, delays)
      else fetchLoop expected script fuel (idx + 1) r (reqs + 1) (delays + 1)
    | .failure => fetchLoop expected script fuel (idx + 1) producers (reqs + 1) (delays + 1)

/-- `getProducers` (lines 662-695): run the retry loop from an empty
accumulator, then filter to active producers and sort descending by vote
weight.  Returns (result, requests issued, delays awaited). -/
def getProducersRun (cfg : Vote4UsConfig) (script : ℕ → FetchOutcome) :
    List Producer × ℕ × ℕ :=
  match fetchLoop cfg.expectedBPs script 5 0 [] 0 0 with
  | (producers, reqs, delays) => (activeSortedProducers producers, reqs, delays)

/-- A `get_account` response as used by `getVotedProducers`: a request-level
failure (non-ok response or network error), or a body whose
`voter_info.producers` field may be absent. -/
inductive AccountResponse where
  | failure
  | ok (voterInfoProducers : Option (List String))
deriving DecidableEq

/-- `getVotedProducers` (lines 728-760): on failure or missing
`voter_info.producers` it returns `[]` without touching the state;
otherwise it filters the voted producers to those in the known active
list, stores `30 - producers.length` in `roomForMoreBPs` and whether the
target is among them in `hasVotedForUs`. -/
def getVotedProducers (cfg : Vote4UsConfig) (resp : AccountResponse)
    (s : Vote4UsState) : List String × Vote4UsState :=
  match resp with
  | .failure => ([], s)
  | .ok none => ([], s)
  | .ok (some prods) =>
    match prods.filter (fun p => decide (p ∈ s.currentProducerStatics.list)) with
    | producers =>
      (producers,
        { s with
            roomForMoreBPs := 30 - (producers.length : ℤ)
            hasVotedForUs := decide (cfg.currentProducer ∈ producers) })

/-- `dropBP` (lines 763-769): rebuild `modifiedBPSelection` from a fresh
copy of `originalBPSelection` with the entry at `indexOf bp` replaced by
the target producer.  When `bp` is absent, `indexOf` is `-1` and the JS
assignment `producers[-1] = target` leaves the array elements unchanged;
`List.set` at the out-of-range index `indexOf = length` models this. -/
def dropBP (target : String) (s : Vote4UsState) (bp : String) : Vote4UsState :=
  { s with
      modifiedBPSelection :=
        s.originalBPSelection.set (s.originalBPSelection.indexOf bp) target }

/-- `resetModifiedBPSelection` (lines 820-823). -/
def resetModifiedBPSelection (s : Vote4UsState) : Vote4UsState :=
  { s with modifiedBPSelection := s.originalBPSelection }

/-- Lexicographic comparison of character sequences by code point, the
order underlying the JS default sort comparator.  (JS compares UTF-16 code
units; producer names are ASCII, where the two orders coincide.) -/
def jsCharListLe : List Char → List Char → Bool
  | [], _ => true
  | _ :: _, [] => false
  | a :: as, b :: bs =>
    if a.toNat < b.toNat then true
    else if b.toNat < a.toNat then false
    else jsCharListLe as bs

/-- The string order used by `producers.sort()` (line 865). -/
def jsStrLe (a b : String) : Bool := jsCharListLe a.data b.data

theorem jsCharListLe_total : ∀ as bs : List Char,
    jsCharListLe as bs = true ∨ jsCharListLe bs as = true
  | [], _ => Or.inl rfl
  | _ :: _, [] => Or.inr rfl
  | a :: as, b :: bs => by
    rcases Nat.lt_trichotomy a.toNat b.toNat with h | h | h
    · exact Or.inl (by simp [jsCharListLe, h])
    · rcases jsCharListLe_total as bs with ih | ih
      · exact Or.inl (by simp [jsCharListLe, h, ih])
      · exact Or.inr (by simp [jsCharListLe, h.symm, ih])
    · exact Or.inr (by simp [jsCharListLe, h])

theorem jsCharListLe_trans : ∀ as bs cs : List Char,
    jsCharListLe as bs = true → jsCharListLe bs cs = true → jsCharListLe as cs = true
  | [], _, _ => fun _ _ => rfl
  | a :: as, [], _ => fun h _ => by simp [jsCharListLe] at h
  | a :: as, b :: bs, [] => fun _ h => by simp [jsCharListLe] at h
  | a :: as, b :: bs, c :: cs => fun h1 h2 => by
    simp only [jsCharListLe] at h1 h2 ⊢
    rcases Nat.lt_trichotomy a.toNat b.toNat with hab | hab | hab
    · rcases Nat.lt_trichotomy b.toNat c.toNat with hbc | hbc | hbc
      · simp [show a.toNat < c.toNat by omega]
      · simp [show a.toNat < c.toNat by omega]
      · rw [if_neg (by omega), if_pos hbc] at h2
        exact absurd h2 (by simp)
    · rw [if_neg (by omega), if_neg (by omega)] at h1
      rcases Nat.lt_trichotomy b.toNat c.toNat with hbc | hbc | hbc
      · simp [show a.toNat < c.toNat by omega]
      · rw [if_neg (by omega), if_neg (by omega)] at h2 ⊢
        exact jsCharListLe_trans as bs cs h1 h2
      · rw [if_neg (by omega), if_pos hbc] at h2
        exact absurd h2 (by simp)
    · rw [if_neg (by omega), if_pos hab] at h1
      exact absurd h1 (by simp)

instance : IsTotal String (fun a b => jsStrLe a b = true) :=
  ⟨fun a b => jsCharListLe_total a.data b.data⟩

instance : IsTrans String (fun a b => jsStrLe a b = true) :=
  ⟨fun a b c => jsCharListLe_trans a.data b.data c.data⟩

/-- `producers.sort()` (line 865): JS default sort, lexicographic ascending. -/
def sortStr (l : List String) : List String :=
  List.insertionSort (fun a b => jsStrLe a b = true) l

/-- The `producers.push(this.config.currentProducer)` step of `voteForUs`
(lines 839-841): append the target unless already present. -/
def pushTarget (target : String) (original : List String) : List String :=
  if target ∈ original then original else original ++ [target]

/-- The second filling step of `voteForUs` (lines 853-862): if still under
30, fill from the known active list, excluding already-selected and
not-suggested producers, shuffled (`sh2`) and truncated to the remaining
slots. -/
def fillRest (sh2 : List String → List String) (notSuggested knownList p : List String) :
    List String :=
  if p.length < 30 then
    p ++ (sh2 (knownList.filter
      (fun bp => decide (bp ∉ p ∧ bp ∉ notSuggested)))).take (30 - p.length)
  else p

/-- The recommendation-filling block of `voteForUs` (lines 844-863): add the
shuffled (`sh1`) eligible suggested producers up to the remaining slots,
then top up from the known active list via `fillRest`. -/
def fillRecommended (sh1 sh2 : List String → List String)
    (suggested notSuggested knownList producers : List String) : List String :=
  fillRest sh2 notSuggested knownList
    (producers ++ (sh1 (suggested.filter
      (fun bp => decide (bp ∉ producers ∧ bp ∈ knownList)))).take (30 - producers.length))

/-- Result of the vote-set reconciliation in `voteForUs`: the `producers`
array handed to `transact`, and the values of `state.originalBPSelection`
and `state.modifiedBPSelection` after the call.  The latter two capture
the JS aliasing: `let producers = this.state.originalBPSelection` (or
`= this.state.modifiedBPSelection` when `roomForMoreBPs === 0`) aliases
the state array, so `push` and the final in-place `sort()` mutate it,
while `concat` (the filling block) rebinds `producers` to a fresh array. -/
structure ReconcileResult where
  outgoing : List String
  originalAfter : List String
  modifiedAfter : List String
deriving DecidableEq

/-- The vote-set reconciliation of `voteForUs` (lines 834-865). -/
def reconcileCore (sh1 sh2 : List String → List String) (target : String)
    (suggested notSuggested knownList original modified : List String)
    (roomForMore : ℤ) (addRecommended : Bool) : ReconcileResult :=
  if roomForMore = 0 then
    if addRecommended ∧ modified.length < 30 then
      { outgoing := sortStr (fillRecommended sh1 sh2 suggested notSuggested knownList modified)
        originalAfter := original
        modifiedAfter := modified }
    else
      { outgoing := sortStr modified
        originalAfter := original
        modifiedAfter := sortStr modified }
  else
    if addRecommended ∧ (pushTarget target original).length < 30 then
      { outgoing := sortStr (fillRecommended sh1 sh2 suggested notSuggested knownList
          (pushTarget target original))
        originalAfter := pushTarget target original
        modifiedAfter := modified }
    else
      { outgoing := sortStr (pushTarget target original)
        originalAfter := sortStr (pushTarget target original)
        modifiedAfter := modified }

/-- `voteForUs` (lines 826-886) up to the hand-off to the external
transaction collaborator: clears `error`, reconciles the vote set from the
current state and configuration, and returns the `producers` list placed
in the `voteproducer` action data together with the state as left by the
reconciliation (the transaction outcome itself is external). -/
def voteForUs (sh1 sh2 : List String → List String) (cfg : Vote4UsConfig)
    (s : Vote4UsState) : List String × Vote4UsState :=
  match reconcileCore sh1 sh2 cfg.currentProducer cfg.suggestedBPs cfg.notSuggestedBPs
      s.currentProducerStatics.list s.originalBPSelection s.modifiedBPSelection
      s.roomForMoreBPs s.addRecommendedBPs with
  | r =>
    (r.outgoing,
      { s with
          error := ""
          originalBPSelection := r.originalAfter
          modifiedBPSelection := r.modifiedAfter })

/-! ### Helper lemmas about the reconciliation building blocks -/

theorem sortStr_perm (l : List String) : (sortStr l).Perm l :=
  List.perm_insertionSort _ l

theorem sortStr_sorted (l : List String) :
    List.Sorted (fun a b => jsStrLe a b = true) (sortStr l) :=
  List.sorted_insertionSort _ l

theorem sortStr_nodup {l : List String} (h : l.Nodup) : (sortStr l).Nodup :=
  (sortStr_perm l).nodup_iff.2 h

theorem sortStr_length (l : List String) : (sortStr l).length = l.length :=
  (sortStr_perm l).length_eq

theorem pushTarget_nodup {t : String} {o : List String} (h : o.Nodup) :
    (pushTarget t o).Nodup := by
  unfold pushTarget
  split
  · exact h
  · rename_i ht
    rw [List.nodup_append]
    refine ⟨h, List.nodup_singleton t, fun a ha hb => ht ?_⟩
    have : a = t := by simpa using hb
    exact this ▸ ha

theorem pushTarget_length_le {t : String} {o : List String} :
    (pushTarget t o).length ≤ o.length + 1 := by
  unfold pushTarget
  split
  · omega
  · simp

theorem mem_pushTarget {t x : String} {o : List String} :
    x ∈ pushTarget t o ↔ x ∈ o ∨ x = t := by
  unfold pushTarget
  split
  · rename_i ht
    constructor
    · exact Or.inl
    · rintro (hx | rfl)
      · exact hx
      · exact ht
  · simp

/-- Appending a truncated shuffle of a duplicate-free pool disjoint from `p`
keeps the list duplicate-free. -/
theorem nodup_append_take_shuffled {p pool shuffled : List String} {n : ℕ}
    (hp : p.Nodup) (hpool : pool.Nodup) (hsh : shuffled.Perm pool)
    (hdisj : ∀ a ∈ pool, a ∉ p) : (p ++ shuffled.take n).Nodup := by
  rw [List.nodup_append]
  refine ⟨hp, List.Nodup.sublist (List.take_sublist n shuffled) (hsh.nodup_iff.2 hpool), ?_⟩
  intro a ha hb
  exact hdisj a (hsh.mem_iff.1 (List.mem_of_mem_take hb)) ha

theorem fillRest_length {sh2 : List String → List String} {ns kl p : List String}
    (hp : p.length ≤ 30) : (fillRest sh2 ns kl p).length ≤ 30 := by
  unfold fillRest
  split
  · rename_i hlt
    simp only [List.length_append, List.length_take]
    omega
  · exact hp

theorem fillRest_nodup {sh2 : List String → List String} {ns kl p : List String}
    (hp : p.Nodup) (hk : kl.Nodup) (hsh2 : ∀ l, (sh2 l).Perm l) :
    (fillRest sh2 ns kl p).Nodup := by
  unfold fillRest
  split
  · refine nodup_append_take_shuffled hp (hk.filter _) (hsh2 _) ?_
    intro a ha
    have := (List.mem_filter.1 ha).2
    exact (of_decide_eq_true this).1
  · exact hp

theorem fillRecommended_length {sh1 sh2 : List String → List String}
    {sugg ns kl producers : List String} (h : producers.length ≤ 30) :
    (fillRecommended sh1 sh2 sugg ns kl producers).length ≤ 30 := by
  unfold fillRecommended
  refine fillRest_length ?_
  simp only [List.length_append, List.length_take]
  omega

theorem fillRecommended_nodup {sh1 sh2 : List String → List String}
    {sugg ns kl producers : List String}
    (hp : producers.Nodup) (hs : sugg.Nodup) (hk : kl.Nodup)
    (hsh1 : ∀ l, (sh1 l).Perm l) (hsh2 : ∀ l, (sh2 l).Perm l) :
    (fillRecommended sh1 sh2 sugg ns kl producers).Nodup := by
  unfold fillRecommended
  refine fillRest_nodup ?_ hk hsh2
  refine nodup_append_take_shuffled hp (hs.filter _) (hsh1 _) ?_
  intro a ha
  have := (List.mem_filter.1 ha).2
  exact (of_decide_eq_true this).1

/-- Core invariant of the reconciliation: under the data-model invariants
(duplicate-free original/modified selections, suggested pool and known
active list; `|original| + roomForMore = 30` with `roomForMore ≥ 0`;
`|modified| ≤ 30`), and for any permutation-valued shuffles, the outgoing
producer set has at most 30 entries, no duplicates, and is sorted
ascending. -/
theorem reconcileCore_invariants (sh1 sh2 : List String → List String)
    (hsh1 : ∀ l, (sh1 l).Perm l) (hsh2 : ∀ l, (sh2 l).Perm l)
    (target : String) (suggested notSuggested knownList original modified : List String)
    (roomForMore : ℤ) (addRecommended : Bool)
    (hO : original.Nodup) (hM : modified.Nodup)
    (hS : suggested.Nodup) (hK : knownList.Nodup)
    (hLen : (original.length : ℤ) + roomForMore = 30)
    (hRoom : 0 ≤ roomForMore)
    (hMLen : modified.length ≤ 30) :
    (reconcileCore sh1 sh2 target suggested notSuggested knownList original modified
        roomForMore addRecommended).outgoing.length ≤ 30 ∧
      (reconcileCore sh1 sh2 target suggested notSuggested knownList original modified
        roomForMore addRecommended).outgoing.Nodup ∧
      List.Sorted (fun a b => jsStrLe a b = true)
        (reconcileCore sh1 sh2 target suggested notSuggested knownList original modified
          roomForMore addRecommended).outgoing := by
  unfold reconcileCore
  by_cases h0 : roomForMore = 0
  · simp only [if_pos h0]
    split
    · exact ⟨by rw [sortStr_length]; exact fillRecommended_length hMLen,
        sortStr_nodup (fillRecommended_nodup hM hS hK hsh1 hsh2),
        sortStr_sorted _⟩
    · exact ⟨by rw [sortStr_length]; exact hMLen, sortStr_nodup hM, sortStr_sorted _⟩
  · simp only [if_neg h0]
    have hO29 : original.length ≤ 29 := by omega
    have hPLen : (pushTarget target original).length ≤ 30 :=
      le_trans pushTarget_length_le (by omega)
    split
    · exact ⟨by rw [sortStr_length]; exact fillRecommended_length hPLen,
        sortStr_nodup (fillRecommended_nodup (pushTarget_nodup hO) hS hK hsh1 hsh2),
        sortStr_sorted _⟩
    · exact ⟨by rw [sortStr_length]; exact hPLen,
        sortStr_nodup (pushTarget_nodup hO), sortStr_sorted _⟩

/-- When `roomForMoreBPs` is 1 with 29 already-voted producers not containing
the target, the reconciliation returns exactly `original ++ [target]`
sorted, and the filling block is skipped whatever `addRecommended` and the
pools are (the set is already full after the push). -/
theorem reconcileCore_roomForMoreOne (sh1 sh2 : List String → List String)
    (target : String) (suggested notSuggested knownList original modified : List String)
    (addRecommended : Bool)
    (hLen : original.length = 29) (hT : target ∉ original) :
    (reconcileCore sh1 sh2 target suggested notSuggested knownList original modified
        1 addRecommended).outgoing = sortStr (original ++ [target]) := by
  have hp : pushTarget target original = original ++ [target] := by
    unfold pushTarget
    rw [if_neg hT]
  have hlen : (pushTarget target original).length = 30 := by
    rw [hp]
    simp [hLen]
  unfold reconcileCore
  rw [if_neg (by omega : ¬ (1 : ℤ) = 0)]
  rw [if_neg (fun h => by omega)]
  · rw [hp]


theorem foldl_dropBP_originalBPSelection (target : String) :
    ∀ (l : List String) (s : Vote4UsState),
      (l.foldl (dropBP target) s).originalBPSelection = s.originalBPSelection
  | [], _ => rfl
  | b :: bs, s => by
    rw [List.foldl_cons, foldl_dropBP_originalBPSelection target bs (dropBP target s b)]
    rfl

/-! ### Concrete fixtures used by witnesses and counterexamples -/

/-- A minimal configuration (endpoint data is irrelevant to the modelled logic). -/
def cfgPlain : Vote4UsConfig :=
  { appName := ""
    currentProducer := "tgt"
    suggestedBPs := []
    notSuggestedBPs := []
    rpcEndpoint := ""
    chainId := ""
    expectedBPs := 100 }

/-- 50 identical active rows, the truncated page of Scenario 4. -/
def rows50 : List Producer :=
  List.replicate 50 { owner := "prod", total_votes := 1, is_active := 1 }

/-- A configuration whose suggested pool contains a duplicate entry. -/
def cfgDupSuggested : Vote4UsConfig :=
  { cfgPlain with currentProducer := "xxx", suggestedBPs := ["aaa", "aaa"] }

/-- A fresh-login state whose fetched active list contains the duplicated
suggested producer and the target. -/
def stDupSuggested : Vote4UsState :=
  { initialState with currentProducerStatics := { emptyStatics with list := ["aaa", "xxx"] } }

/-- A voter state with one voted producer and room for 29 more. -/
def stOneVoted : Vote4UsState :=
  { initialState with
    originalBPSelection := ["aaa"]
    modifiedBPSelection := ["aaa"]
    roomForMoreBPs := 29
    currentProducerStatics := { emptyStatics with list := ["aaa", "sug", "tgt"] } }

/-- A configuration with one suggested producer. -/
def cfgOneSuggested : Vote4UsConfig := { cfgPlain with suggestedBPs := ["sug"] }

/-- 29 distinct voted producers, none of them the target. -/
def orig29 : List String := (List.range 29).map (fun i => "p" ++ toString i)

/-- A voter state with 29 voted producers and room for exactly one more. -/
def stRoomOne : Vote4UsState :=
  { initialState with
    originalBPSelection := orig29
    modifiedBPSelection := orig29
    roomForMoreBPs := 1
    currentProducerStatics := { emptyStatics with list := "tgt" :: orig29 } }

/-- 29 distinct voted producers, the target among them. -/
def orig29T : List String := "tgt" :: (List.range 28).map (fun i => "p" ++ toString i)

/-- A voter state with `roomForMoreBPs = 1` whose 29 known entries already
contain the target. -/
def stRoomOneVoted : Vote4UsState :=
  { initialState with
    originalBPSelection := orig29T
    modifiedBPSelection := orig29T
    roomForMoreBPs := 1
    currentProducerStatics := { emptyStatics with list := "zzz" :: orig29T } }

/-- Configuration with the extra suggested producer `zzz`. -/
def cfgZzzSuggested : Vote4UsConfig := { cfgPlain with suggestedBPs := ["zzz"] }

/-- The state of a voter who voted for `alice` only, target not yet voted. -/
def stAlice : Vote4UsState :=
  { initialState with
    originalBPSelection := ["alice"]
    modifiedBPSelection := ["alice"]
    roomForMoreBPs := 29
    addRecommendedBPs := false }

/-- Configuration promoting `bob`. -/
def cfgBob : Vote4UsConfig := { cfgPlain with currentProducer := "bob" }

/-- A state whose selections hold two producers. -/
def stTwoVoted : Vote4UsState :=
  { initialState with
    originalBPSelection := ["aaa", "bbb"]
    modifiedBPSelection := ["aaa", "bbb"]
    roomForMoreBPs := 28 }

/-! ### Claims -/

/-- C1 (amended): for every input state satisfying the data-model invariants
(duplicate-free original and modified selections, suggested pool and known
active list; `|original| + roomForMoreBPs = 30` with `roomForMoreBPs ≥ 0`;
`|modified| ≤ 30`) and any permutation-valued shuffle draws, the producer
set computed by the vote reconciliation in `voteForUs` and handed to the
transaction collaborator contains at most 30 entries, contains no
duplicate identifiers, and is sorted ascending lexicographically. -/
theorem voteForUs_output_atMost30_nodup_sorted
    (sh1 sh2 : List String → List String)
    (hsh1 : ∀ l, (sh1 l).Perm l) (hsh2 : ∀ l, (sh2 l).Perm l)
    (cfg : Vote4UsConfig) (s : Vote4UsState)
    (hO : s.originalBPSelection.Nodup) (hM : s.modifiedBPSelection.Nodup)
    (hS : cfg.suggestedBPs.Nodup) (hK : s.currentProducerStatics.list.Nodup)
    (hLen : (s.originalBPSelection.length : ℤ) + s.roomForMoreBPs = 30)
    (hRoom : 0 ≤ s.roomForMoreBPs)
    (hMLen : s.modifiedBPSelection.length ≤ 30) :
    (voteForUs sh1 sh2 cfg s).1.length ≤ 30 ∧ (voteForUs sh1 sh2 cfg s).1.Nodup ∧
      List.Sorted (fun a b => jsStrLe a b = true) (voteForUs sh1 sh2 cfg s).1 :=
  reconcileCore_invariants sh1 sh2 hsh1 hsh2 cfg.currentProducer cfg.suggestedBPs
    cfg.notSuggestedBPs s.currentProducerStatics.list s.originalBPSelection
    s.modifiedBPSelection s.roomForMoreBPs s.addRecommendedBPs
    hO hM hS hK hLen hRoom hMLen

theorem voteForUs_output_atMost30_nodup_sorted_witness :
    (voteForUs id id cfgOneSuggested stOneVoted).1.length ≤ 30 ∧
      (voteForUs id id cfgOneSuggested stOneVoted).1.Nodup ∧
      List.Sorted (fun a b => jsStrLe a b = true)
        (voteForUs id id cfgOneSuggested stOneVoted).1 :=
  voteForUs_output_atMost30_nodup_sorted id id (fun l => List.Perm.refl l)
    (fun l => List.Perm.refl l) cfgOneSuggested stOneVoted
    (by decide) (by decide) (by decide) (by decide) (by decide) (by decide) (by decide)

/-- C1 counterexample: with a duplicated suggested pool (an input state the
claim quantifies over) and the identity shuffle draw, the reconciled
producer set contains the duplicate, so it is not duplicate-free. -/
theorem voteForUs_output_dup_counterexample :
    (voteForUs id id cfgDupSuggested stDupSuggested).1 = ["aaa", "aaa", "xxx"] ∧
      ¬ (voteForUs id id cfgDupSuggested stDupSuggested).1.Nodup := by
  constructor
  · decide
  · decide

/-- C2: for the producer set [{A,1000,active},{B,2000,active},{C,500,inactive}]
with target A, the active-filter and descending sort followed by the
statistics computation yields totalVotes = 3000, rank = 2,
votes = round(1000/10000) = 0, percentage = "33.33%", list = ["B","A"]. -/
theorem statistics_scenario1 :
    computeStatistics (activeSortedProducers
      [{ owner := "A", total_votes := 1000, is_active := 1 },
        { owner := "B", total_votes := 2000, is_active := 1 },
        { owner := "C", total_votes := 500, is_active := 0 }]) "A" =
      { rank := 2, votes := 0, totalVotes := 3000, percentage := "33.33%", list := ["B", "A"] } := by
  decide

/-- C3 (amended): for every voter state with `roomForMoreBPs = 1` whose
original selection has 29 entries not containing the target, the
reconciled final set is exactly `original ++ [target]` sorted (the set
union `original ∪ {target}`), and no recommendation filling occurs
regardless of the `addRecommendedBPs` flag; when the target is already
among the 29 entries the filling block can run (see the counterexample). -/
theorem voteForUs_roomForMoreOne
    (sh1 sh2 : List String → List String) (cfg : Vote4UsConfig) (s : Vote4UsState)
    (hRoom : s.roomForMoreBPs = 1)
    (hLen : s.originalBPSelection.length = 29)
    (hT : cfg.currentProducer ∉ s.originalBPSelection) :
    (voteForUs sh1 sh2 cfg s).1 =
      sortStr (s.originalBPSelection ++ [cfg.currentProducer]) := by
  have h : (voteForUs sh1 sh2 cfg s).1 =
      (reconcileCore sh1 sh2 cfg.currentProducer cfg.suggestedBPs cfg.notSuggestedBPs
        s.currentProducerStatics.list s.originalBPSelection s.modifiedBPSelection
        s.roomForMoreBPs s.addRecommendedBPs).outgoing := rfl
  rw [h, hRoom]
  exact reconcileCore_roomForMoreOne sh1 sh2 cfg.currentProducer cfg.suggestedBPs
    cfg.notSuggestedBPs s.currentProducerStatics.list s.originalBPSelection
    s.modifiedBPSelection s.addRecommendedBPs hLen hT

theorem voteForUs_roomForMoreOne_witness :
    (voteForUs id id cfgPlain stRoomOne).1 =
      sortStr (stRoomOne.originalBPSelection ++ [cfgPlain.currentProducer]) :=
  voteForUs_roomForMoreOne id id cfgPlain stRoomOne (by decide) (by decide) (by decide)

/-- C3 counterexample: a voter state with `roomForMoreBPs = 1` and 29 known
entries that already contain the target; with `addRecommendedBPs` true the
filling block runs and adds the suggested producer `zzz`, so the final set
is not `original ∪ {target}`. -/
theorem voteForUs_roomForMoreOne_counterexample :
    stRoomOneVoted.roomForMoreBPs = 1 ∧
      stRoomOneVoted.originalBPSelection.length = 29 ∧
      cfgZzzSuggested.currentProducer ∈ stRoomOneVoted.originalBPSelection ∧
      "zzz" ∈ (voteForUs id id cfgZzzSuggested stRoomOneVoted).1 ∧
      "zzz" ∉ stRoomOneVoted.originalBPSelection ∧
      "zzz" ≠ cfgZzzSuggested.currentProducer := by
  refine ⟨by decide, by decide, by decide, by decide, by decide, by decide⟩

/-- C4: when the `get_account` response has no `voter_info` key,
`getVotedProducers` returns the empty list and leaves the state untouched;
in particular, from the initial state, `hasVotedForUs` remains `true`
(not `false` as the claim states) and `roomForMoreBPs` remains 30. -/
theorem getVotedProducers_noVoterInfo :
    (∀ (cfg : Vote4UsConfig) (s : Vote4UsState),
      getVotedProducers cfg (.ok none) s = ([], s)) ∧
      (getVotedProducers cfgPlain (.ok none) initialState).2.hasVotedForUs = true ∧
      (getVotedProducers cfgPlain (.ok none) initialState).2.roomForMoreBPs = 30 :=
  ⟨fun _ _ => rfl, by decide, by decide⟩

/-- C5 (amended): with `expectedBPs = 100` and every attempt returning the
same 50 rows, the fetch performs exactly 5 requests, raises no exception,
returns the 50 accumulated rows (filtered and sorted), and awaits 5
two-second delays — one after every attempt including the last, because
only the early-exit break skips the delay. -/
theorem getProducers_truncated_fiveAttempts :
    getProducersRun cfgPlain (fun _ => FetchOutcome.rows rows50) = (rows50, 5, 5) := by
  decide

/-- C5 counterexample: the number of delays incurred on that run is not 4. -/
theorem getProducers_truncated_delays_ne_four :
    (getProducersRun cfgPlain (fun _ => FetchOutcome.rows rows50)).2.2 ≠ 4 := by
  decide

/-- C6 (amended): the statistics computation does not special-case a zero
`totalVotes`: whenever the target producer is found and the rounded vote
total is 0, the percentage field is the JS rendering of the untreated
division — "NaN%" when the target's votes are 0, "Infinity%"/"-Infinity%"
otherwise — never a two-decimal number. -/
theorem computeStatistics_zeroTotalVotes (producers : List Producer) (target : String)
    (pd : Producer)
    (hfind : producers.find? (fun p => decide (p.owner = target)) = some pd)
    (htot : jsRound (producers.foldl (fun s p => s + p.total_votes) 0) = 0) :
    (computeStatistics producers target).percentage =
      if pd.total_votes = 0 then "NaN%"
      else if 0 < pd.total_votes then "Infinity%" else "-Infinity%" := by
  have hne : producers.isEmpty = false := by
    cases producers
    · simp at hfind
    · rfl
  unfold computeStatistics
  rw [if_neg (by simp [hne]), hfind]
  dsimp only
  rw [htot]
  unfold percentStr
  rw [if_pos (by norm_num)]
  by_cases h1 : pd.total_votes = 0
  · simp only [if_pos h1]
    rfl
  · simp only [if_neg h1]
    by_cases h2 : 0 < pd.total_votes
    · simp only [if_pos h2]
      rfl
    · simp only [if_neg h2]
      rfl

theorem computeStatistics_zeroTotalVotes_witness :
    (computeStatistics [{ owner := "tgt", total_votes := 0, is_active := 1 }] "tgt").percentage
      = "NaN%" :=
  computeStatistics_zeroTotalVotes
    [{ owner := "tgt", total_votes := 0, is_active := 1 }] "tgt"
    { owner := "tgt", total_votes := 0, is_active := 1 } (by decide) (by decide)

/-- C6 counterexample: two active producers with zero votes, target present;
the percentage field renders as "NaN%", not a two-decimal number. -/
theorem computeStatistics_NaN_counterexample :
    (computeStatistics
      [{ owner := "tgt", total_votes := 0, is_active := 1 },
        { owner := "other", total_votes := 0, is_active := 1 }] "tgt").percentage = "NaN%" := by
  decide

/-- C7: if the fetched producer list is empty, or the target producer is
absent from it, the statistics computation returns the zeroed/empty
statistics value without throwing. -/
theorem computeStatistics_emptyOrAbsent (producers : List Producer) (target : String)
    (h : producers = [] ∨ ∀ p ∈ producers, p.owner ≠ target) :
    computeStatistics producers target = emptyStatics := by
  rcases h with rfl | h
  · rfl
  · have hnone : producers.find? (fun p => decide (p.owner = target)) = none := by
      rw [List.find?_eq_none]
      intro x hx
      simpa using h x hx
    unfold computeStatistics
    rw [hnone]
    split
    · rfl
    · rfl

theorem computeStatistics_emptyOrAbsent_witness :
    computeStatistics [{ owner := "aaa", total_votes := 1, is_active := 1 }] "bbb"
      = emptyStatics :=
  computeStatistics_emptyOrAbsent _ _ (Or.inr (by decide))

/-- C8: evaluating `voteForUs` on a state with `roomForMoreBPs = 29` whose
stored original selection is `["alice"]` and target `bob`: because
`let producers = this.state.originalBPSelection` aliases the state array,
the `push` (and, with filling skipped, the in-place `sort`) mutates the
stored original selection to `["alice", "bob"]` — the claim that it is
changed only by re-querying the account endpoint fails on this input. -/
theorem voteForUs_mutates_originalBPSelection :
    stAlice.roomForMoreBPs = 29 ∧ stAlice.originalBPSelection = ["alice"] ∧
      (voteForUs id id cfgBob stAlice).2.originalBPSelection = ["alice", "bob"] ∧
      (voteForUs id id cfgBob stAlice).2.originalBPSelection ≠ stAlice.originalBPSelection := by
  refine ⟨by decide, by decide, by decide, by decide⟩

/-- C9: `resetAll` returns every state field to its initial value while
keeping `currentProducerStatics` at its previously fetched value. -/
theorem resetAll_initial_except_statics (s : Vote4UsState) :
    resetAll s = { initialState with currentProducerStatics := s.currentProducerStatics } :=
  rfl

/-- C10: starting from a state whose modified selection equals the original,
any nonempty sequence of `dropBP` calls rebuilds `modifiedBPSelection`
from a fresh copy of `originalBPSelection`, so afterwards it equals the
original with only the position of the last-dropped name replaced by the
target (same length, at most one differing position), the original is
untouched, and `resetModifiedBPSelection` restores the modified selection
(`dropBP` followed by `resetModifiedBPSelection` is the identity on it). -/
theorem dropBP_sequence_reset (target : String) (s : Vote4UsState)
    (bps : List String) (bp : String)
    (hms : s.modifiedBPSelection = s.originalBPSelection) :
    ((bps ++ [bp]).foldl (dropBP target) s).originalBPSelection = s.originalBPSelection ∧
      ((bps ++ [bp]).foldl (dropBP target) s).modifiedBPSelection =
        s.originalBPSelection.set (s.originalBPSelection.indexOf bp) target ∧
      ((bps ++ [bp]).foldl (dropBP target) s).modifiedBPSelection.length =
        s.originalBPSelection.length ∧
      (resetModifiedBPSelection ((bps ++ [bp]).foldl (dropBP target) s)).modifiedBPSelection =
        s.originalBPSelection ∧
      (resetModifiedBPSelection (dropBP target s bp)).modifiedBPSelection =
        s.modifiedBPSelection := by
  have hfold : (bps ++ [bp]).foldl (dropBP target) s =
      dropBP target (bps.foldl (dropBP target) s) bp := by
    rw [List.foldl_append]
    rfl
  have horig : (bps.foldl (dropBP target) s).originalBPSelection = s.originalBPSelection :=
    foldl_dropBP_originalBPSelection target bps s
  have hmod : ((bps ++ [bp]).foldl (dropBP target) s).modifiedBPSelection =
      s.originalBPSelection.set (s.originalBPSelection.indexOf bp) target := by
    rw [hfold]
    show (bps.foldl (dropBP target) s).originalBPSelection.set
      ((bps.foldl (dropBP target) s).originalBPSelection.indexOf bp) target = _
    rw [horig]
  refine ⟨?_, hmod, ?_, ?_, ?_⟩
  · rw [hfold]
    exact horig
  · rw [hmod, List.length_set]
  · show ((bps ++ [bp]).foldl (dropBP target) s).originalBPSelection = s.originalBPSelection
    rw [hfold]
    exact horig
  · show (dropBP target s bp).originalBPSelection = s.modifiedBPSelection
    exact hms.symm

theorem dropBP_sequence_reset_witness :
    ((["aaa"] ++ ["bbb"]).foldl (dropBP "tgt") stTwoVoted).originalBPSelection =
        stTwoVoted.originalBPSelection ∧
      ((["aaa"] ++ ["bbb"]).foldl (dropBP "tgt") stTwoVoted).modifiedBPSelection =
        stTwoVoted.originalBPSelection.set
          (stTwoVoted.originalBPSelection.indexOf "bbb") "tgt" ∧
      ((["aaa"] ++ ["bbb"]).foldl (dropBP "tgt") stTwoVoted).modifiedBPSelection.length =
        stTwoVoted.originalBPSelection.length ∧
      (resetModifiedBPSelection
          ((["aaa"] ++ ["bbb"]).foldl (dropBP "tgt") stTwoVoted)).modifiedBPSelection =
        stTwoVoted.originalBPSelection ∧
      (resetModifiedBPSelection (dropBP "tgt" stTwoVoted "bbb")).modifiedBPSelection =
        stTwoVoted.modifiedBPSelection :=
  dropBP_sequence_reset "tgt" stTwoVoted ["aaa"] "bbb" (by decide)

end Vote4Us
